import Mathlib

/-
  Verification of the OpenXR session/frame lifecycle code in the
  pyopenxr_examples repository.

  The embedding models the lifecycle sequencing logic of the example
  programs: session state event handlers, the frame wait/begin/end
  bracketing, the per-view swapchain acquire/wait/release loop, handle
  teardown ordering, the event poll loops, and the bounded session
  wind-down loops.  External OpenXR runtime calls are recorded as trace
  elements; exceptions raised by the runtime or by caller render code are
  modelled with Except values or explicit raised flags, following the
  control flow of the Python sources (xr_context_foo.py, pink_world3.py,
  pink_world_one_file.py, headless.py, hello_xr/openxr_program.py,
  hello_xr/graphics_plugin_opengl.py, hello_xr_one_file.py).
-/

namespace PyOpenXR

/-- The xr.SessionState enumeration (the fixed set of session states). -/
inductive SessionState
  | unknown
  | idle
  | ready
  | synchronized
  | visible
  | focused
  | stopping
  | lossPending
  | exiting
deriving DecidableEq, Repr

/-- Events drained from the runtime event queue, as dispatched on
xr.StructureType by the examples.  A session state changed event carries
the decoded new state and whether the event names a session other than
the one owned by the program (checked only by hello_xr). -/
inductive XrEvent
  | sessionStateChanged (s : SessionState) (otherSession : Bool)
  | instanceLossPending
  | interactionProfileChanged
  | otherEvent
deriving DecidableEq, Repr

/-- Calls into the OpenXR runtime that the lifecycle code issues, recorded
as a trace.  Swapchains are identified by their view index. -/
inductive XrCall
  | beginSession
  | endSession
  | destroySession
  | requestExitSession
  | waitFrame
  | beginFrame
  | endFrame
  | acquireImage (sc : Nat)
  | waitImage (sc : Nat)
  | renderView (sc : Nat)
  | releaseImage (sc : Nat)
deriving DecidableEq, Repr

/-! ## Session state event handlers -/

/-- The mutable state of SessionManager in xr_context_foo.py that its
handle_event method touches. -/
structure SMState where
  sessionState : SessionState
  isRunning : Bool
  exitFrameLoop : Bool
  isHeadless : Bool
deriving DecidableEq, Repr

/-- SessionManager.handle_event from xr_context_foo.py: ignores events other
than session state changes; records the new state; on READY begins the
session and marks running; on STOPPING marks not running and ends the
session; on EXITING sets the exit flag.  All other states (including
LOSS_PENDING) fall through with no action. -/
def SessionManager.handle_event (st : SMState) (ev : XrEvent) :
    SMState × List XrCall :=
  match ev with
  | .sessionStateChanged s _ =>
    let st1 := { st with sessionState := s }
    match s with
    | .ready => ({ st1 with isRunning := true }, [XrCall.beginSession])
    | .stopping => ({ st1 with isRunning := false }, [XrCall.endSession])
    | .exiting => ({ st1 with exitFrameLoop := true }, [])
    | _ => (st1, [])
  | _ => (st, [])

/-- The fields of OpenXRProgram from hello_xr/openxr_program.py that its
session state change handler touches. -/
structure HelloState where
  sessionState : SessionState
  sessionRunning : Bool
deriving DecidableEq, Repr

/-- OpenXRProgram.handle_session_state_changed_event from
hello_xr/openxr_program.py.  The new state is recorded first; if the event
names an unknown session the flags pass through unchanged; otherwise READY
begins the session, STOPPING ends it, EXITING sets the exit flag and clears
request_restart, LOSS_PENDING sets both flags.  Returns the updated
program state, the two flags, and the calls issued. -/
def OpenXRProgram.handle_session_state_changed_event
    (st : HelloState) (s : SessionState) (otherSession : Bool)
    (exitRenderLoop requestRestart : Bool) :
    HelloState × Bool × Bool × List XrCall :=
  let st1 := { st with sessionState := s }
  if otherSession then (st1, exitRenderLoop, requestRestart, [])
  else
    match s with
    | .ready => ({ st1 with sessionRunning := true },
        exitRenderLoop, requestRestart, [XrCall.beginSession])
    | .stopping => ({ st1 with sessionRunning := false },
        exitRenderLoop, requestRestart, [XrCall.endSession])
    | .exiting => (st1, true, false, [])
    | .lossPending => (st1, true, true, [])
    | _ => (st1, exitRenderLoop, requestRestart, [])

/-- The state of SessionStateEventHandler shared verbatim by
pink_world_one_file.py and hello_xr_one_file.py. -/
structure OneFileState where
  exitRenderLoop : Bool
  requestRestart : Bool
  sessionState : SessionState
  sessionIsRunning : Bool
deriving DecidableEq, Repr

/-- SessionStateEventHandler.handle_event from pink_world_one_file.py
(identical in hello_xr_one_file.py): INSTANCE_LOSS_PENDING sets both exit
and restart flags; a session state change records the state, and READY
begins the session, STOPPING ends it, EXITING or LOSS_PENDING sets the
exit flag with request_restart equal to whether the state is LOSS_PENDING. -/
def SessionStateEventHandler.handle_event (st : OneFileState) (ev : XrEvent) :
    OneFileState × List XrCall :=
  match ev with
  | .instanceLossPending =>
    ({ st with exitRenderLoop := true, requestRestart := true }, [])
  | .sessionStateChanged s _ =>
    let st1 := { st with sessionState := s }
    match s with
    | .ready => ({ st1 with sessionIsRunning := true }, [XrCall.beginSession])
    | .stopping => ({ st1 with sessionIsRunning := false }, [XrCall.endSession])
    | .exiting =>
      ({ st1 with exitRenderLoop := true, requestRestart := false }, [])
    | .lossPending =>
      ({ st1 with exitRenderLoop := true, requestRestart := true }, [])
    | _ => (st1, [])
  | _ => (st, [])

/-- The event dispatch of the module level poll loop in headless.py: a
session state change records the state; READY begins the session; STOPPING
destroys the session outright (there is no end_session call in this file).
Other events are ignored. -/
def headlessEventStep (sessionState : SessionState) (ev : XrEvent) :
    SessionState × List XrCall :=
  match ev with
  | .sessionStateChanged s _ =>
    match s with
    | .ready => (s, [XrCall.beginSession])
    | .stopping => (s, [XrCall.destroySession])
    | _ => (s, [])
  | _ => (sessionState, [])

/-! ## Frame sequencers -/

/-- One frame bracketed by the FrameManager context manager of
xr_context_foo.py, under Python with statement semantics: enter calls
xr.wait_frame and, unless headless, xr.begin_frame; the body (caller render
code) runs and may raise; the exit method runs even when the body raised
and, unless headless, calls xr.end_frame.  Returns the trace and whether
the body exception propagates to the caller. -/
def FrameManager.run (isHeadless bodyRaises : Bool) : List XrCall × Bool :=
  let enterCalls := XrCall.waitFrame :: (if isHeadless then [] else [XrCall.beginFrame])
  let exitCalls := if isHeadless then [] else [XrCall.endFrame]
  (enterCalls ++ exitCalls, bodyRaises)

/-- One frame bracketed by the FrameManager context manager of
pink_world3.py: enter calls xr.wait_frame and xr.begin_frame
unconditionally, exit calls xr.end_frame unconditionally, also when the
body raised. -/
def PinkWorld3FrameManager.run (bodyRaises : Bool) : List XrCall × Bool :=
  ([XrCall.waitFrame, XrCall.beginFrame, XrCall.endFrame], bodyRaises)

/-- The per-view loop at the end of OpenXRProgram.render_layer in
hello_xr/openxr_program.py (the same shape as the per-view loop of
pink_world_one_file.py): for each view index, acquire the swapchain image,
wait for it, render into it, then release it.  raisesAt gives the view at
which the render call raises; when it raises, the loop is abandoned by the
exception before the release call.  Returns the trace and the raised flag. -/
def renderViewsLoop (raisesAt : Option Nat) : List Nat → List XrCall × Bool
  | [] => ([], false)
  | i :: rest =>
    let pre := [XrCall.acquireImage i, XrCall.waitImage i]
    if raisesAt = some i then (pre, true)
    else
      match renderViewsLoop raisesAt rest with
      | (tail, raised) =>
        (pre ++ [XrCall.renderView i, XrCall.releaseImage i] ++ tail, raised)

/-- OpenXRProgram.render_layer: locate views; when the view poses are not
valid, return False having issued no swapchain calls; otherwise run the
per-view loop over all views.  Returns the trace, the returned bool (layer
filled), and whether an exception propagates. -/
def OpenXRProgram.render_layer (numViews : Nat) (posesValid : Bool)
    (raisesAt : Option Nat) : List XrCall × Bool × Bool :=
  if posesValid then
    match renderViewsLoop raisesAt (List.range numViews) with
    | (calls, true) => (calls, false, true)
    | (calls, false) => (calls, true, false)
  else ([], false, false)

/-- OpenXRProgram.render_frame from hello_xr/openxr_program.py: wait_frame,
begin_frame, then, when the frame state says to render, render_layer; the
end_frame call is reached only when render_layer returns without raising.
There is no try or finally around the render, so an exception from the
render propagates without end_frame. -/
def OpenXRProgram.render_frame (numViews : Nat) (shouldRender posesValid : Bool)
    (raisesAt : Option Nat) : List XrCall × Bool :=
  let head := [XrCall.waitFrame, XrCall.beginFrame]
  if shouldRender then
    match OpenXRProgram.render_layer numViews posesValid raisesAt with
    | (calls, _, true) => (head ++ calls, true)
    | (calls, _, false) => (head ++ calls ++ [XrCall.endFrame], false)
  else (head ++ [XrCall.endFrame], false)

/-! ## Acquire and release protocol bookkeeping -/

/-- Acquire or release, for the projection of a trace onto one swapchain. -/
inductive AcqRel
  | acq
  | rel
deriving DecidableEq, Repr

/-- Project one call onto the acquire and release calls of swapchain sc. -/
def acqRelOf (sc : Nat) : XrCall → Option AcqRel
  | .acquireImage j => if j = sc then some AcqRel.acq else none
  | .releaseImage j => if j = sc then some AcqRel.rel else none
  | _ => none

/-- The acquire and release events of swapchain sc in a trace, in order. -/
def acqRelTrace (sc : Nat) (tr : List XrCall) : List AcqRel :=
  tr.filterMap (acqRelOf sc)

/-- Strict alternation: each acquire is followed by exactly one release
before the next acquire, and no release happens without an acquire. -/
def alternatesAcqRel : List AcqRel → Bool
  | [] => true
  | .acq :: .rel :: rest => alternatesAcqRel rest
  | _ => false

/-! ## Teardown ordering -/

/-- The handles chained by XrContext in xr_context_foo.py. -/
inductive CtxHandle
  | instanceH
  | graphicsContext
  | sessionH
  | referenceSpace
  | swapchains
  | sessionManager
deriving DecidableEq, Repr

/-- Which XrContext fields currently hold a live component (None is
modelled as false).  system_id is a plain identifier, not a handle, and is
not tracked here. -/
structure CtxState where
  instanceF : Bool
  systemId : Bool
  graphicsContext : Bool
  sessionF : Bool
  referenceSpace : Bool
  swapchains : Bool
  sessionManager : Bool
deriving DecidableEq, Repr

/-- The XrContext state with every field None. -/
def emptyCtx : CtxState :=
  ⟨false, false, false, false, false, false, false⟩

/-- Whether a given handle is currently held by the context state. -/
def CtxState.has (st : CtxState) : CtxHandle → Bool
  | .instanceH => st.instanceF
  | .graphicsContext => st.graphicsContext
  | .sessionH => st.sessionF
  | .referenceSpace => st.referenceSpace
  | .swapchains => st.swapchains
  | .sessionManager => st.sessionManager

/-- XrContext aExit from xr_context_foo.py (the context manager exit
method): destroys, in this order, the session manager, the swapchains, the
reference space, the session, the graphics context and the instance, each
only if its field is not None, resetting every field (and system_id) to
None.  Returns the reset state and the destruction trace. -/
def XrContext.exitCtx (st : CtxState) : CtxState × List CtxHandle :=
  (emptyCtx,
    (if st.sessionManager then [CtxHandle.sessionManager] else [])
    ++ (if st.swapchains then [CtxHandle.swapchains] else [])
    ++ (if st.referenceSpace then [CtxHandle.referenceSpace] else [])
    ++ (if st.sessionF then [CtxHandle.sessionH] else [])
    ++ (if st.graphicsContext then [CtxHandle.graphicsContext] else [])
    ++ (if st.instanceF then [CtxHandle.instanceH] else []))

/-- The order in which XrContext enterCtx creates its components; in
headless mode the graphics context and the swapchains are skipped. -/
def xrContextCreationOrder (headless : Bool) : List CtxHandle :=
  [CtxHandle.instanceH]
  ++ (if headless then [] else [CtxHandle.graphicsContext])
  ++ [CtxHandle.sessionH, CtxHandle.referenceSpace]
  ++ (if headless then [] else [CtxHandle.swapchains])
  ++ [CtxHandle.sessionManager]

/-- XrContext aEnter from xr_context_foo.py, with the construction steps
numbered: 0 instance, 1 get_system, 2 graphics context (skipped when
headless), 3 session, 4 reference space, 5 swapchains (skipped when
headless), 6 session manager.  failAt names the step whose call raises;
the field for a failing step is never assigned.  On an exception the
except BaseException branch invokes the exit method on the partial state
and re-raises.  Returns the final state, the destruction trace and whether
an exception propagates. -/
def XrContext.enterCtx (headless : Bool) (failAt : Option Nat) :
    CtxState × List CtxHandle × Bool :=
  let abort := fun (st : CtxState) =>
    match XrContext.exitCtx st with
    | (st1, tr) => (st1, tr, true)
  if failAt = some 0 then abort emptyCtx else
  let st := { emptyCtx with instanceF := true }
  if failAt = some 1 then abort st else
  let st := { st with systemId := true }
  if !headless && failAt = some 2 then abort st else
  let st := if headless then st else { st with graphicsContext := true }
  if failAt = some 3 then abort st else
  let st := { st with sessionF := true }
  if failAt = some 4 then abort st else
  let st := { st with referenceSpace := true }
  if !headless && failAt = some 5 then abort st else
  let st := if headless then st else { st with swapchains := true }
  if failAt = some 6 then abort st else
  let st := { st with sessionManager := true }
  (st, [], false)

/-- The XrContext state built by a completed enterCtx. -/
def XrContext.fullState (headless : Bool) : CtxState :=
  ⟨true, true, !headless, true, true, !headless, true⟩

/-- The state enterCtx has built just before executing step k (the
prefix of assignments that precede the call of step k). -/
def XrContext.stateBefore (headless : Bool) : Nat → CtxState
  | 0 => emptyCtx
  | 1 => ⟨true, false, false, false, false, false, false⟩
  | 2 => ⟨true, true, false, false, false, false, false⟩
  | 3 => ⟨true, true, !headless, false, false, false, false⟩
  | 4 => ⟨true, true, !headless, true, false, false, false⟩
  | 5 => ⟨true, true, !headless, true, true, false, false⟩
  | 6 => ⟨true, true, !headless, true, true, !headless, false⟩
  | _ => XrContext.fullState headless

/-- The handles owned by OpenXRProgram in hello_xr/openxr_program.py.  The
two hand spaces are indexed 0 (left) and 1 (right); visualized spaces and
swapchains are indexed by position in their lists. -/
inductive HelloHandle
  | instanceH
  | sessionH
  | actionSetH
  | handSpace (side : Nat)
  | visualizedSpace (i : Nat)
  | appSpace
  | swapchainH (i : Nat)
deriving DecidableEq, Repr

/-- The order in which the hello_xr program creates its handles:
create_instance, then initialize_session (session, then the action set and
the two hand action spaces, then the visualized reference spaces, then the
app space), then create_swapchains. -/
def helloCreationOrder (nVis nSwap : Nat) : List HelloHandle :=
  [HelloHandle.instanceH, HelloHandle.sessionH, HelloHandle.actionSetH,
   HelloHandle.handSpace 0, HelloHandle.handSpace 1]
  ++ (List.range nVis).map HelloHandle.visualizedSpace
  ++ [HelloHandle.appSpace]
  ++ (List.range nSwap).map HelloHandle.swapchainH

/-- The destruction order of OpenXRProgram aExit in
hello_xr/openxr_program.py on a fully constructed program: the two hand
spaces and the action set first, then every swapchain, then every
visualized space, then the app space, the session, and last the instance;
on Linux the instance destroy call is skipped as a SteamVR workaround. -/
def OpenXRProgram.exitOrder (nVis nSwap : Nat) (isLinux : Bool) :
    List HelloHandle :=
  [HelloHandle.handSpace 0, HelloHandle.handSpace 1, HelloHandle.actionSetH]
  ++ (List.range nSwap).map HelloHandle.swapchainH
  ++ (List.range nVis).map HelloHandle.visualizedSpace
  ++ [HelloHandle.appSpace, HelloHandle.sessionH]
  ++ (if isLinux then [] else [HelloHandle.instanceH])

/-! ## Event polling -/

/-- The exception raised by the xr.poll_event binding when the runtime
reports XR_EVENT_UNAVAILABLE (the queue is empty). -/
inductive EventUnavailable
  | mk
deriving DecidableEq, Repr

/-- The runtime event queue model used by xr.poll_event: an empty queue
raises EventUnavailable, a nonempty queue yields the head event at once
(the call never blocks in either case). -/
def poll_event : List XrEvent → Except EventUnavailable (XrEvent × List XrEvent)
  | [] => Except.error EventUnavailable.mk
  | e :: rest => Except.ok (e, rest)

/-- The raw xrPollEvent result codes inspected by
OpenXRProgram.try_read_next_event. -/
inductive RawPollResult
  | success (e : XrEvent)
  | eventUnavailable
  | failure (code : Int)
deriving DecidableEq, Repr

/-- The raw result an xrPollEvent call yields on a given queue: SUCCESS
with the head event, or EVENT_UNAVAILABLE on an empty queue. -/
def rawPollResult : List XrEvent → RawPollResult
  | [] => RawPollResult.eventUnavailable
  | e :: _ => RawPollResult.success e

/-- OpenXRProgram.try_read_next_event from hello_xr/openxr_program.py:
SUCCESS returns the event, EVENT_UNAVAILABLE returns None (not an error),
and any other result code is converted to a raised exception. -/
def OpenXRProgram.try_read_next_event (r : RawPollResult) :
    Except Int (Option XrEvent) :=
  match r with
  | .success e => Except.ok (some e)
  | .eventUnavailable => Except.ok none
  | .failure code => Except.error code

/-- The inner drain loop of SessionManager poll_events in
xr_context_foo.py: poll repeatedly and post each event to the bus (whose
only subscriber here is the session manager itself); the EventUnavailable
exception from an empty queue is caught and terminates only this loop. -/
def SessionManager.poll_events (st : SMState) :
    List XrEvent → SMState × List XrCall
  | [] => (st, [])
  | e :: rest =>
    let r1 := SessionManager.handle_event st e
    let r2 := SessionManager.poll_events r1.1 rest
    (r2.1, r1.2 ++ r2.2)

/-- OpenXRProgram.poll_events from hello_xr/openxr_program.py: drain the
queue via try_read_next_event until it returns None; an instance loss
pending event returns (True, True) immediately; a session state changed
event runs the state change handler threading the two flags; other events
are logged and ignored. -/
def OpenXRProgram.poll_events (st : HelloState)
    (exitRenderLoop requestRestart : Bool) :
    List XrEvent → HelloState × Bool × Bool × List XrCall
  | [] => (st, exitRenderLoop, requestRestart, [])
  | e :: rest =>
    match e with
    | .instanceLossPending => (st, true, true, [])
    | .sessionStateChanged s other =>
      match OpenXRProgram.handle_session_state_changed_event st s other
          exitRenderLoop requestRestart with
      | (st1, er1, rr1, c1) =>
        match OpenXRProgram.poll_events st1 er1 rr1 rest with
        | (st2, er2, rr2, c2) => (st2, er2, rr2, c1 ++ c2)
    | _ =>
      match OpenXRProgram.poll_events st exitRenderLoop requestRestart rest with
      | (st2, er2, rr2, c2) => (st2, er2, rr2, c2)

/-- The inner drain loop of the pink_world_one_file.py main procedure:
poll repeatedly, hand each event to the SessionStateEventHandler, and stop
when the EventUnavailable exception is caught. -/
def oneFilePollEvents (st : OneFileState) :
    List XrEvent → OneFileState × List XrCall
  | [] => (st, [])
  | e :: rest =>
    let r1 := SessionStateEventHandler.handle_event st e
    let r2 := oneFilePollEvents r1.1 rest
    (r2.1, r1.2 ++ r2.2)

/-! ## Session wind-down -/

/-- The exception raised by xr.request_exit_session when the session is
not running. -/
inductive SessionNotRunningError
  | mk
deriving DecidableEq, Repr

/-- xr.request_exit_session: succeeds on a running session and raises
SessionNotRunningError otherwise. -/
def request_exit_session (isRunning : Bool) :
    Except SessionNotRunningError Unit :=
  if isRunning then Except.ok () else Except.error SessionNotRunningError.mk

/-- The bounded wind-down loop in SessionManager aExit of
xr_context_foo.py: up to the given fuel (20 in the source) iterations of
polling followed, while the exit flag is unset, by an empty frame when the
session is running.  queues holds the events the runtime delivers at each
iteration.  Returns the final state, the number of iterations executed and
the trace. -/
def smWindDownLoop (st : SMState) (queues : List (List XrEvent)) :
    Nat → SMState × Nat × List XrCall
  | 0 => (st, 0, [])
  | n + 1 =>
    let r1 := SessionManager.poll_events st (queues.headD [])
    if r1.1.exitFrameLoop then (r1.1, 1, r1.2)
    else
      let frame := if r1.1.isRunning
        then (FrameManager.run r1.1.isHeadless false).1 else []
      let r2 := smWindDownLoop r1.1 queues.tail n
      (r2.1, r2.2.1 + 1, r1.2 ++ frame ++ r2.2.2)

/-- SessionManager aExit from xr_context_foo.py: request session exit,
catching SessionNotRunningError and ignoring it, then run the bounded
wind-down loop.  A SessionNotRunningError never propagates; the result is
always the wind-down outcome. -/
def SessionManager.exitSM (st : SMState) (queues : List (List XrEvent)) :
    Except SessionNotRunningError (SMState × Nat × List XrCall) :=
  match request_exit_session st.isRunning with
  | Except.ok _ => Except.ok (smWindDownLoop st queues 20)
  | Except.error SessionNotRunningError.mk =>
    Except.ok (smWindDownLoop st queues 20)

/-- The session states in which the one-file wind-down runs a frame. -/
def oneFileRunningStates : List SessionState :=
  [SessionState.ready, SessionState.synchronized,
   SessionState.visible, SessionState.focused]

/-- The bounded wind-down loop at the end of pink_world_one_file.py main:
up to the given fuel (20 in the source) iterations of draining events
followed, while exit_render_loop is unset, by an empty
wait_frame/begin_frame/end_frame triad when the session is running and in
a running sub-state. -/
def pinkWindDownLoop (st : OneFileState) (queues : List (List XrEvent)) :
    Nat → OneFileState × Nat × List XrCall
  | 0 => (st, 0, [])
  | n + 1 =>
    let r1 := oneFilePollEvents st (queues.headD [])
    if r1.1.exitRenderLoop then (r1.1, 1, r1.2)
    else
      let frame := if r1.1.sessionIsRunning
          && oneFileRunningStates.contains r1.1.sessionState
        then [XrCall.waitFrame, XrCall.beginFrame, XrCall.endFrame] else []
      let r2 := pinkWindDownLoop r1.1 queues.tail n
      (r2.1, r2.2.1 + 1, r1.2 ++ frame ++ r2.2.2)

/-- The wind-down tail of pink_world_one_file.py main: request session
exit, catching the SessionNotRunningError raised when the session is not
running, then run the bounded wind-down loop. -/
def pinkWindDown (st : OneFileState) (queues : List (List XrEvent)) :
    Except SessionNotRunningError (OneFileState × Nat × List XrCall) :=
  match request_exit_session st.sessionIsRunning with
  | Except.ok _ => Except.ok (pinkWindDownLoop st queues 20)
  | Except.error SessionNotRunningError.mk =>
    Except.ok (pinkWindDownLoop st queues 20)

/-! ## Swapchain color format selection -/

/-- OpenGL sized internal format GL_RGB10_A2. -/
def GL_RGB10_A2 : Nat := 0x8059

/-- OpenGL sized internal format GL_RGBA16F. -/
def GL_RGBA16F : Nat := 0x881A

/-- OpenGL sized internal format GL_RGBA8. -/
def GL_RGBA8 : Nat := 0x8058

/-- OpenGL sized internal format GL_RGBA8_SNORM. -/
def GL_RGBA8_SNORM : Nat := 0x8F97

/-- OpenGL sized internal format GL_SRGB8. -/
def GL_SRGB8 : Nat := 0x8C41

/-- OpenGL sized internal format GL_SRGB8_ALPHA8. -/
def GL_SRGB8_ALPHA8 : Nat := 0x8C43

/-- The supported color swapchain format list of
OpenGLGraphicsPlugin.select_color_swapchain_format in
hello_xr/graphics_plugin_opengl.py, in its source order. -/
def supported_color_swapchain_formats : List Nat :=
  [GL_RGB10_A2, GL_RGBA16F, GL_RGBA8, GL_RGBA8_SNORM, GL_SRGB8, GL_SRGB8_ALPHA8]

/-- The inner loop of select_color_swapchain_format: scan the supported
list for the given runtime format. -/
def findSupported (rf : Nat) : List Nat → Option Nat
  | [] => none
  | sf :: rest => if rf = sf then some sf else findSupported rf rest

/-- OpenGLGraphicsPlugin.select_color_swapchain_format: the outer loop
runs over the runtime reported formats and the inner loop over the
supported list, returning on the first match; none models the
RuntimeError raised when the loops find no match. -/
def select_color_swapchain_format : List Nat → Option Nat
  | [] => none
  | rf :: rest =>
    match findSupported rf supported_color_swapchain_formats with
    | some sf => some sf
    | none => select_color_swapchain_format rest

/-- Modelled from the spec sentence behind the claim, for comparison with
the source function: the selected format is the earliest entry of the
preference list that the runtime supports. -/
def spec_select_color_swapchain_format (runtimeFormats : List Nat) :
    Option Nat :=
  supported_color_swapchain_formats.find? (fun sf => runtimeFormats.contains sf)

/-! ## Claims about the event handlers (C3, C4) -/

/-- C3 counterexample: the claim says end-session is issued if and only if
the newly decoded state is STOPPING, but the headless.py event pump, on a
session state changed event decoding to STOPPING, issues destroy-session
and no end-session call. -/
theorem c3_counterexample :
    (headlessEventStep SessionState.focused
        (XrEvent.sessionStateChanged SessionState.stopping false)).1
      = SessionState.stopping
    ∧ XrCall.endSession ∉
      (headlessEventStep SessionState.focused
        (XrEvent.sessionStateChanged SessionState.stopping false)).2 := by
  decide

/-- C3 (amended): in SessionManager.handle_event,
OpenXRProgram.handle_session_state_changed_event (for events on the owned
session) and SessionStateEventHandler.handle_event, begin-session is
issued iff the decoded state is READY and end-session iff it is STOPPING,
and no other event kind issues either; the headless.py pump issues
begin-session iff READY but on STOPPING destroys the session instead of
issuing end-session. -/
theorem c3_begin_end_session_policy :
    (∀ (st : SMState) (s : SessionState) (other : Bool),
      (XrCall.beginSession ∈
          (SessionManager.handle_event st (XrEvent.sessionStateChanged s other)).2
        ↔ s = SessionState.ready)
      ∧ (XrCall.endSession ∈
          (SessionManager.handle_event st (XrEvent.sessionStateChanged s other)).2
        ↔ s = SessionState.stopping))
    ∧ (∀ st : SMState,
      SessionManager.handle_event st XrEvent.instanceLossPending = (st, [])
      ∧ SessionManager.handle_event st XrEvent.interactionProfileChanged = (st, [])
      ∧ SessionManager.handle_event st XrEvent.otherEvent = (st, []))
    ∧ (∀ (st : HelloState) (s : SessionState) (other er rr : Bool),
      (XrCall.beginSession ∈
          (OpenXRProgram.handle_session_state_changed_event st s other er rr).2.2.2
        ↔ (other = false ∧ s = SessionState.ready))
      ∧ (XrCall.endSession ∈
          (OpenXRProgram.handle_session_state_changed_event st s other er rr).2.2.2
        ↔ (other = false ∧ s = SessionState.stopping)))
    ∧ (∀ (st : OneFileState) (s : SessionState) (other : Bool),
      (XrCall.beginSession ∈
          (SessionStateEventHandler.handle_event st
            (XrEvent.sessionStateChanged s other)).2
        ↔ s = SessionState.ready)
      ∧ (XrCall.endSession ∈
          (SessionStateEventHandler.handle_event st
            (XrEvent.sessionStateChanged s other)).2
        ↔ s = SessionState.stopping))
    ∧ (∀ st : OneFileState,
      (SessionStateEventHandler.handle_event st XrEvent.instanceLossPending).2 = []
      ∧ (SessionStateEventHandler.handle_event st XrEvent.interactionProfileChanged).2 = []
      ∧ (SessionStateEventHandler.handle_event st XrEvent.otherEvent).2 = [])
    ∧ (∀ (s0 s : SessionState) (other : Bool),
      (XrCall.beginSession ∈
          (headlessEventStep s0 (XrEvent.sessionStateChanged s other)).2
        ↔ s = SessionState.ready)
      ∧ XrCall.endSession ∉
          (headlessEventStep s0 (XrEvent.sessionStateChanged s other)).2
      ∧ (XrCall.destroySession ∈
          (headlessEventStep s0 (XrEvent.sessionStateChanged s other)).2
        ↔ s = SessionState.stopping)) := by
  refine ⟨?_, ?_, ?_, ?_, ?_, ?_⟩
  · intro st s other
    cases s <;> simp [SessionManager.handle_event]
  · intro st
    exact ⟨rfl, rfl, rfl⟩
  · intro st s other er rr
    cases other <;> cases s <;>
      simp [OpenXRProgram.handle_session_state_changed_event]
  · intro st s other
    cases s <;> simp [SessionStateEventHandler.handle_event]
  · intro st
    exact ⟨rfl, rfl, rfl⟩
  · intro s0 s other
    cases s <;> simp [headlessEventStep]

/-- C4 counterexample: the claim says a session state changed event
decoding to LOSS_PENDING makes the event pump set the exit flag, but
SessionManager.handle_event in xr_context_foo.py leaves the exit flag
unset on LOSS_PENDING. -/
theorem c4_counterexample :
    (SessionManager.handle_event
        ⟨SessionState.focused, true, false, false⟩
        (XrEvent.sessionStateChanged SessionState.lossPending false)).1.exitFrameLoop
      = false := by
  decide

/-- C4 (amended): in the hello_xr handler (for events on the owned
session) and the one-file handler, the exit flag output is set exactly on
EXITING or LOSS_PENDING (or when already set on input), with the
request-restart flag set on LOSS_PENDING and cleared on EXITING; the
xr_context_foo SessionManager sets its exit flag on EXITING but leaves it
unchanged on LOSS_PENDING, and has no request-restart flag at all. -/
theorem c4_exit_flag_policy :
    (∀ (st : HelloState) (s : SessionState) (er rr : Bool),
      (OpenXRProgram.handle_session_state_changed_event st s false er rr).2.1
        = (er || decide (s = SessionState.exiting)
            || decide (s = SessionState.lossPending))
      ∧ (OpenXRProgram.handle_session_state_changed_event st s false er rr).2.2.1
        = (if s = SessionState.exiting then false
           else if s = SessionState.lossPending then true else rr))
    ∧ (∀ (st : OneFileState) (s : SessionState) (other : Bool),
      (SessionStateEventHandler.handle_event st
          (XrEvent.sessionStateChanged s other)).1.exitRenderLoop
        = (st.exitRenderLoop || decide (s = SessionState.exiting)
            || decide (s = SessionState.lossPending))
      ∧ (SessionStateEventHandler.handle_event st
          (XrEvent.sessionStateChanged s other)).1.requestRestart
        = (if s = SessionState.exiting then false
           else if s = SessionState.lossPending then true
           else st.requestRestart))
    ∧ (∀ (st : SMState) (other : Bool),
      (SessionManager.handle_event st
          (XrEvent.sessionStateChanged SessionState.exiting other)).1.exitFrameLoop
        = true
      ∧ (SessionManager.handle_event st
          (XrEvent.sessionStateChanged SessionState.lossPending other)).1.exitFrameLoop
        = st.exitFrameLoop) := by
  refine ⟨?_, ?_, ?_⟩
  · intro st s er rr
    cases s <;> simp [OpenXRProgram.handle_session_state_changed_event]
  · intro st s other
    cases s <;> simp [SessionStateEventHandler.handle_event]
  · intro st other
    exact ⟨rfl, rfl⟩

/-! ## Claims about the frame sequencer and the swapchain protocol (C1, C2) -/

/-- A per-view loop that never raises performs, for each view in order,
exactly the acquire, wait, render, release quadruple. -/
theorem renderViewsLoop_none_clean (l : List Nat) :
    renderViewsLoop none l
      = (l.flatMap (fun i => [XrCall.acquireImage i, XrCall.waitImage i,
          XrCall.renderView i, XrCall.releaseImage i]), false) := by
  induction l with
  | nil => rfl
  | cons i rest ih => simp [renderViewsLoop, ih]

/-- The per-view loop issues no begin-frame and no end-frame call. -/
theorem renderViewsLoop_no_frame_calls (raisesAt : Option Nat) (l : List Nat) :
    ((renderViewsLoop raisesAt l).1.count XrCall.beginFrame = 0)
    ∧ ((renderViewsLoop raisesAt l).1.count XrCall.endFrame = 0) := by
  induction l with
  | nil => simp [renderViewsLoop]
  | cons i rest ih =>
    by_cases h : raisesAt = some i <;>
      simp [renderViewsLoop, h, List.count_append, List.count_cons, ih.1, ih.2]

/-- C1 counterexample: the claim says end-frame is invoked exactly once
per begin-frame even when the caller-supplied render code raises, but
OpenXRProgram.render_frame in hello_xr/openxr_program.py, when the render
of view 0 raises, propagates the exception after begin-frame with no
end-frame call. -/
theorem c1_counterexample :
    OpenXRProgram.render_frame 2 true true (some 0)
      = ([XrCall.waitFrame, XrCall.beginFrame,
          XrCall.acquireImage 0, XrCall.waitImage 0], true)
    ∧ ((OpenXRProgram.render_frame 2 true true (some 0)).1.count
        XrCall.beginFrame = 1)
    ∧ ((OpenXRProgram.render_frame 2 true true (some 0)).1.count
        XrCall.endFrame = 0) := by
  decide

/-- C1 (amended): the FrameManager context managers of xr_context_foo.py
and pink_world3.py invoke end-frame exactly once per begin-frame, also
when the caller-supplied render body raises; hello_xr render_frame upholds
the balance only when the render does not raise. -/
theorem c1_end_frame_per_begin_frame :
    (∀ h b : Bool, ((FrameManager.run h b).1.count XrCall.beginFrame)
        = ((FrameManager.run h b).1.count XrCall.endFrame))
    ∧ (∀ b : Bool, ((PinkWorld3FrameManager.run b).1.count XrCall.beginFrame)
        = ((PinkWorld3FrameManager.run b).1.count XrCall.endFrame))
    ∧ (∀ (n : Nat) (sr pv : Bool),
      ((OpenXRProgram.render_frame n sr pv none).1.count XrCall.beginFrame)
        = ((OpenXRProgram.render_frame n sr pv none).1.count XrCall.endFrame)) := by
  refine ⟨?_, ?_, ?_⟩
  · intro h b
    cases h <;> rfl
  · intro b
    rfl
  · intro n sr pv
    cases sr with
    | false => rfl
    | true =>
      cases pv with
      | false => rfl
      | true =>
        have hclean := renderViewsLoop_none_clean (List.range n)
        have hcount := renderViewsLoop_no_frame_calls none (List.range n)
        simp only [OpenXRProgram.render_frame, OpenXRProgram.render_layer,
          if_true, hclean]
        simp [List.count_append, List.count_cons, hclean ▸ hcount.1,
          hclean ▸ hcount.2]

/-- The acquire and release projection of the clean per-view trace
alternates acquire then release for every swapchain. -/
theorem acqRel_alternates_clean (sc : Nat) (l : List Nat) :
    alternatesAcqRel (acqRelTrace sc
      (l.flatMap (fun i => [XrCall.acquireImage i, XrCall.waitImage i,
        XrCall.renderView i, XrCall.releaseImage i]))) = true := by
  induction l with
  | nil => rfl
  | cons i rest ih =>
    by_cases h : i = sc <;>
      simp_all [acqRelTrace, acqRelOf, List.filterMap_append, alternatesAcqRel]

/-- C2 counterexample: the claim says every acquire is matched by exactly
one release before the next acquire including when the render raises, but
in OpenXRProgram.render_layer with two views, a render raise at view 0
leaves swapchain 0 acquired and never released. -/
theorem c2_counterexample :
    OpenXRProgram.render_layer 2 true (some 0)
      = ([XrCall.acquireImage 0, XrCall.waitImage 0], false, true)
    ∧ alternatesAcqRel (acqRelTrace 0
        (OpenXRProgram.render_layer 2 true (some 0)).1) = false := by
  decide

/-- C2 (amended): whenever the render step completes without raising, the
per-view loop performs acquire, wait, render, release in that order for
each view, and the acquire and release calls of every swapchain alternate
with exactly one release per acquire before the next acquire; a raising
render skips the release of the in-flight swapchain. -/
theorem c2_acquire_release_protocol :
    (∀ l : List Nat, renderViewsLoop none l
      = (l.flatMap (fun i => [XrCall.acquireImage i, XrCall.waitImage i,
          XrCall.renderView i, XrCall.releaseImage i]), false))
    ∧ (∀ (n sc : Nat) (pv : Bool),
      alternatesAcqRel (acqRelTrace sc
        (OpenXRProgram.render_layer n pv none).1) = true) := by
  refine ⟨renderViewsLoop_none_clean, ?_⟩
  intro n sc pv
  cases pv with
  | false => rfl
  | true =>
    have hclean := renderViewsLoop_none_clean (List.range n)
    simp only [OpenXRProgram.render_layer, if_true, hclean]
    exact acqRel_alternates_clean sc (List.range n)

/-! ## Claims about teardown ordering (C5, C9) -/

/-- C5 counterexample: the claim says handles are destroyed in the exact
reverse of their creation order, but the hello_xr program destruction
order (hand spaces and action set first) is not the reverse of its
creation order, in which the action set and hand spaces precede the
visualized spaces, the app space and the swapchains. -/
theorem c5_counterexample :
    OpenXRProgram.exitOrder 7 2 false ≠ (helloCreationOrder 7 2).reverse := by
  decide

/-- C5 (amended): XrContext tears down in the exact reverse of its
creation order (in windowed and headless mode alike); the hello_xr
teardown is not the exact reverse, but it does preserve the ownership
nesting: every swapchain, space and action-set handle is destroyed before
the session, and the session before the instance (whose destroy call is
skipped on Linux). -/
theorem c5_teardown_order :
    (∀ headless : Bool,
      (XrContext.exitCtx (XrContext.fullState headless)).2
        = (xrContextCreationOrder headless).reverse)
    ∧ (∀ isLinux : Bool, ∀ h ∈ OpenXRProgram.exitOrder 7 2 isLinux,
        h ≠ HelloHandle.sessionH → h ≠ HelloHandle.instanceH →
        (OpenXRProgram.exitOrder 7 2 isLinux).indexOf h
          < (OpenXRProgram.exitOrder 7 2 isLinux).indexOf HelloHandle.sessionH)
    ∧ ((OpenXRProgram.exitOrder 7 2 false).indexOf HelloHandle.sessionH
        < (OpenXRProgram.exitOrder 7 2 false).indexOf HelloHandle.instanceH) := by
  refine ⟨?_, ?_, ?_⟩
  · intro headless
    cases headless <;> rfl
  · intro isLinux
    cases isLinux <;> decide
  · decide

/-- C5 witness: the amended nesting bound applied to the action set
handle on the non-Linux teardown path. -/
theorem c5_teardown_order_witness :
    (OpenXRProgram.exitOrder 7 2 false).indexOf HelloHandle.actionSetH
      < (OpenXRProgram.exitOrder 7 2 false).indexOf HelloHandle.sessionH :=
  c5_teardown_order.2.1 false HelloHandle.actionSetH (by decide)
    (by decide) (by decide)

/-- C9 (confirmed): XrContext exit destroys exactly the components whose
fields are constructed, in reverse creation order, and resets every field
to None; when any enter step raises, enter invokes exit on the partially
constructed state and re-raises, and a completed enter destroys nothing. -/
theorem c9_enter_failure_unwinds :
    (∀ st : CtxState, XrContext.exitCtx st
      = (emptyCtx, ((xrContextCreationOrder false).filter st.has).reverse))
    ∧ (∀ (headless : Bool) (k : Nat), k ≤ 6 →
        (headless = true → k ≠ 2 ∧ k ≠ 5) →
        XrContext.enterCtx headless (some k)
          = ((XrContext.exitCtx (XrContext.stateBefore headless k)).1,
             (XrContext.exitCtx (XrContext.stateBefore headless k)).2, true))
    ∧ (∀ headless : Bool,
        XrContext.enterCtx headless none
          = (XrContext.fullState headless, [], false)) := by
  refine ⟨?_, ?_, ?_⟩
  · intro st
    obtain ⟨a, b, c, d, e, f, g⟩ := st
    cases a <;> cases c <;> cases d <;> cases e <;> cases f <;> cases g <;> rfl
  · intro headless k hk hval
    cases headless with
    | false => interval_cases k <;> rfl
    | true =>
      have h2 := (hval rfl).1
      have h5 := (hval rfl).2
      interval_cases k <;>
        first
          | rfl
          | exact absurd rfl h2
          | exact absurd rfl h5
  · intro headless
    cases headless <;> rfl

/-- C9 witness: a failure at the session creation step of a windowed
enter unwinds the instance and graphics context and re-raises. -/
theorem c9_enter_failure_unwinds_witness :
    XrContext.enterCtx false (some 3)
      = ((XrContext.exitCtx (XrContext.stateBefore false 3)).1,
         (XrContext.exitCtx (XrContext.stateBefore false 3)).2, true) :=
  c9_enter_failure_unwinds.2.1 false 3 (by decide) (fun h => nomatch h)

/-! ## Claims about event polling and wind-down (C6, C7, C10) -/

/-- C6 (confirmed): polling an empty queue yields the explicit
EVENT_UNAVAILABLE signal; try_read_next_event maps it to None rather than
an exception; and every drain loop, on an empty queue, returns normally
with its state unchanged, so the signal terminates only the inner loop. -/
theorem c6_empty_queue_is_not_an_error :
    poll_event [] = Except.error EventUnavailable.mk
    ∧ rawPollResult [] = RawPollResult.eventUnavailable
    ∧ OpenXRProgram.try_read_next_event (rawPollResult []) = Except.ok none
    ∧ (∀ st : SMState, SessionManager.poll_events st [] = (st, []))
    ∧ (∀ (st : HelloState) (er rr : Bool),
        OpenXRProgram.poll_events st er rr [] = (st, er, rr, []))
    ∧ (∀ st : OneFileState, oneFilePollEvents st [] = (st, [])) :=
  ⟨rfl, rfl, rfl, fun _ => rfl, fun _ _ _ => rfl, fun _ => rfl⟩

/-- C7 (confirmed): with the session not running, request_exit_session
raises SessionNotRunningError, and both SessionManager exit and the
pink_world_one_file wind-down catch it and proceed to the full bounded
wind-down loop, propagating nothing. -/
theorem c7_request_exit_not_running :
    (∀ (st : SMState) (queues : List (List XrEvent)),
      st.isRunning = false →
      request_exit_session st.isRunning
          = Except.error SessionNotRunningError.mk
      ∧ SessionManager.exitSM st queues
          = Except.ok (smWindDownLoop st queues 20))
    ∧ (∀ (st : OneFileState) (queues : List (List XrEvent)),
      st.sessionIsRunning = false →
      request_exit_session st.sessionIsRunning
          = Except.error SessionNotRunningError.mk
      ∧ pinkWindDown st queues = Except.ok (pinkWindDownLoop st queues 20)) := by
  constructor
  · intro st queues h
    constructor
    · simp [request_exit_session, h]
    · simp [SessionManager.exitSM, request_exit_session, h]
  · intro st queues h
    constructor
    · simp [request_exit_session, h]
    · simp [pinkWindDown, request_exit_session, h]

/-- C7 witness: the never-started session manager state. -/
theorem c7_request_exit_not_running_witness :
    request_exit_session
        (SMState.mk SessionState.unknown false false false).isRunning
      = Except.error SessionNotRunningError.mk
    ∧ SessionManager.exitSM ⟨SessionState.unknown, false, false, false⟩ []
      = Except.ok (smWindDownLoop ⟨SessionState.unknown, false, false, false⟩ [] 20) :=
  c7_request_exit_not_running.1 ⟨SessionState.unknown, false, false, false⟩ [] rfl

/-- The wind-down loop of SessionManager runs at most as many iterations
as its fuel. -/
theorem smWindDownLoop_le (st : SMState) (queues : List (List XrEvent))
    (fuel : Nat) : (smWindDownLoop st queues fuel).2.1 ≤ fuel := by
  induction fuel generalizing st queues with
  | zero => simp [smWindDownLoop]
  | succ n ih =>
    simp only [smWindDownLoop]
    split
    · simp
    · simpa using Nat.succ_le_succ (ih _ _)

/-- The one-file wind-down loop runs at most as many iterations as its
fuel. -/
theorem pinkWindDownLoop_le (st : OneFileState) (queues : List (List XrEvent))
    (fuel : Nat) : (pinkWindDownLoop st queues fuel).2.1 ≤ fuel := by
  induction fuel generalizing st queues with
  | zero => simp [pinkWindDownLoop]
  | succ n ih =>
    simp only [pinkWindDownLoop]
    split
    · simp
    · simpa using Nat.succ_le_succ (ih _ _)

/-- C10 (confirmed): both wind-down loops execute at most 20 iterations on
any event delivery (in particular when no EXITING state ever arrives), and
an iteration whose event drain ends with the exit flag set is the last:
the loop stops there, running no frame in it. -/
theorem c10_wind_down_terminates :
    (∀ (st : SMState) (queues : List (List XrEvent)),
      (smWindDownLoop st queues 20).2.1 ≤ 20)
    ∧ (∀ (st : SMState) (q : List XrEvent) (rest : List (List XrEvent))
        (n : Nat),
        (SessionManager.poll_events st q).1.exitFrameLoop = true →
        smWindDownLoop st (q :: rest) (n + 1)
          = ((SessionManager.poll_events st q).1, 1,
             (SessionManager.poll_events st q).2))
    ∧ (∀ (st : OneFileState) (queues : List (List XrEvent)),
      (pinkWindDownLoop st queues 20).2.1 ≤ 20)
    ∧ (∀ (st : OneFileState) (q : List XrEvent) (rest : List (List XrEvent))
        (n : Nat),
        (oneFilePollEvents st q).1.exitRenderLoop = true →
        pinkWindDownLoop st (q :: rest) (n + 1)
          = ((oneFilePollEvents st q).1, 1, (oneFilePollEvents st q).2)) := by
  refine ⟨fun st queues => smWindDownLoop_le st queues 20, ?_,
    fun st queues => pinkWindDownLoop_le st queues 20, ?_⟩
  · intro st q rest n h
    simp [smWindDownLoop, h]
  · intro st q rest n h
    simp [pinkWindDownLoop, h]

/-- C10 witness: an EXITING event delivered in the first wind-down
iteration stops the session manager loop after exactly one iteration. -/
theorem c10_wind_down_terminates_witness :
    smWindDownLoop ⟨SessionState.focused, true, false, false⟩
        [[XrEvent.sessionStateChanged SessionState.exiting false]] 20
      = ((SessionManager.poll_events ⟨SessionState.focused, true, false, false⟩
            [XrEvent.sessionStateChanged SessionState.exiting false]).1, 1,
         (SessionManager.poll_events ⟨SessionState.focused, true, false, false⟩
            [XrEvent.sessionStateChanged SessionState.exiting false]).2) :=
  c10_wind_down_terminates.2.1 ⟨SessionState.focused, true, false, false⟩
    [XrEvent.sessionStateChanged SessionState.exiting false] [] 19 (by decide)

/-! ## Claims about swapchain format selection (C8) -/

/-- The inner loop of select_color_swapchain_format returns the probed
runtime format exactly when the supported list holds it. -/
theorem findSupported_eq (rf : Nat) (l : List Nat) :
    findSupported rf l = if rf ∈ l then some rf else none := by
  induction l with
  | nil => rfl
  | cons sf rest ih =>
    by_cases h : rf = sf
    · simp [findSupported, h]
    · simp [findSupported, h, ih]

/-- C8 counterexample: the claim says the earliest entry of the preference
list that the runtime supports wins, but when the runtime reports RGBA8
before RGB10_A2 the code returns RGBA8, although RGB10_A2 comes first in
the preference list.  The second conjunct evaluates the claim-side
selection for comparison. -/
theorem c8_counterexample :
    select_color_swapchain_format [GL_RGBA8, GL_RGB10_A2] = some GL_RGBA8
    ∧ spec_select_color_swapchain_format [GL_RGBA8, GL_RGB10_A2]
        = some GL_RGB10_A2
    ∧ GL_RGBA8 ≠ GL_RGB10_A2 := by
  decide

/-- C8 (amended): the selected format is the earliest entry of the
runtime-reported list that appears anywhere in the fixed preference list,
and the selection fails (raising RuntimeError) exactly when no
runtime-reported format is in the preference list. -/
theorem c8_format_selection :
    (∀ l : List Nat, select_color_swapchain_format l = none
      ↔ ∀ f ∈ l, f ∉ supported_color_swapchain_formats)
    ∧ (∀ (l : List Nat) (f : Nat), select_color_swapchain_format l = some f →
        f ∈ supported_color_swapchain_formats
        ∧ ∃ l1 l2, l = l1 ++ f :: l2
            ∧ ∀ g ∈ l1, g ∉ supported_color_swapchain_formats) := by
  constructor
  · intro l
    induction l with
    | nil => simp [select_color_swapchain_format]
    | cons rf rest ih =>
      by_cases h : rf ∈ supported_color_swapchain_formats
      · simp [select_color_swapchain_format, findSupported_eq, h]
      · simp [select_color_swapchain_format, findSupported_eq, h, ih]
  · intro l f
    induction l with
    | nil => intro h; cases h
    | cons rf rest ih =>
      intro hsel
      by_cases h : rf ∈ supported_color_swapchain_formats
      · rw [select_color_swapchain_format, findSupported_eq, if_pos h] at hsel
        obtain rfl : rf = f := by
          simpa using hsel
        exact ⟨h, [], rest, rfl, by simp⟩
      · rw [select_color_swapchain_format, findSupported_eq, if_neg h] at hsel
        obtain ⟨hf, l1, l2, hsplit, hnone⟩ := ih hsel
        refine ⟨hf, rf :: l1, l2, by simp [hsplit], ?_⟩
        intro g hg
        rcases List.mem_cons.mp hg with hg | hg
        · exact hg ▸ h
        · exact hnone g hg

/-- C8 witness: the amended selection property applied to a singleton
runtime format list. -/
theorem c8_format_selection_witness :
    GL_RGBA8 ∈ supported_color_swapchain_formats
    ∧ ∃ l1 l2, [GL_RGBA8] = l1 ++ GL_RGBA8 :: l2
        ∧ ∀ g ∈ l1, g ∉ supported_color_swapchain_formats :=
  c8_format_selection.2 [GL_RGBA8] GL_RGBA8 (by decide)

end PyOpenXR
